import Mathlib

/-!
Shallow embedding of the real-time simulation core of the `einsof` arcade
game (frontend TypeScript sources).  Numeric values are modelled as exact
rationals.  The source computes a handful of irrational quantities
(`Math.cos`/`Math.sin` of an asteroid's angle, `Math.sqrt` in point-to-segment
distances, `Math.tan` for the field of view, `Math.random` draws); those are
threaded through the embedding as explicit function/oracle parameters, so that
every definition stays executable and every theorem quantifies over them.
-/

unseal Rat.add Rat.mul Rat.inv Rat.sub

namespace Einsof

/-- A 2-D point `{x, y}` (screen or polygon space). -/
structure Pt where
  x : ℚ
  y : ℚ
deriving DecidableEq, Repr

/-- The craft rectangle `{x, y, width, height}` (`Spaceship` interface). -/
structure Ship where
  x : ℚ
  y : ℚ
  width : ℚ
  height : ℚ
deriving DecidableEq, Repr

/-- An asteroid, from the `Asteroid` interface of `Asteroids.ts` together with
the dynamically added `gaveFuelBonus` field used by `GameCanvas`
(absent at creation, i.e. falsy, modelled as `false`).  The `color` string is
omitted: it is never read by the simulation. -/
structure Asteroid where
  x : ℚ
  y : ℚ
  z : ℚ
  size : ℚ
  speed : ℚ
  outer : List Pt
  holes : List (List Pt)
  angle : ℚ
  spin : ℚ
  opacity : ℚ
  gaveFuelBonus : Bool
deriving DecidableEq, Repr

/-- A starfield star (3-D position, optional previous projection `px`/`py`,
size, speed factor and fade-in opacity). -/
structure Star where
  x : ℚ
  y : ℚ
  z : ℚ
  px : Option ℚ
  py : Option ℚ
  size : ℚ
  speed : ℚ
  opacity : ℚ
deriving DecidableEq, Repr

/-- `projectStar` from `Starfield.ts`: perspective divide of a 3-D point to
screen space, given canvas width/height, the field-of-view scalar and the
aspect ratio. -/
def projectStar (x y z width height fov aspect : ℚ) : Pt :=
  ⟨x / (z * fov) * width / 2 * aspect + width / 2,
   y / (z * fov) * height / 2 + height / 2⟩

/-- `pointInPolygon` from `asteroidGenerator.ts`: standard even-odd
ray-casting test.  The loop runs `i` from `0` to `length - 1` with `j` the
previous index (wrapping to `length - 1` at `i = 0`); the division is guarded
by the source's `1e-10` epsilon. -/
def pointInPolygon (p : Pt) (polygon : List Pt) : Bool :=
  (List.range polygon.length).foldl
    (fun inside i =>
      let pi := polygon.getD i ⟨0, 0⟩
      let pj := polygon.getD (if i = 0 then polygon.length - 1 else i - 1) ⟨0, 0⟩
      let intersect :=
        (decide (pi.y > p.y) != decide (pj.y > p.y)) &&
          decide (p.x <
            (pj.x - pi.x) * (p.y - pi.y) / (pj.y - pi.y + 1 / 10000000000) + pi.x)
      if intersect then !inside else inside)
    false

/-- The screen-space transform applied to an asteroid's polygon both when
rendering (`drawAsteroids`) and when testing collisions (`checkCollision`):
rotate every vertex by `angle`, scale by `width / (z * fov) * 0.5` and
translate by the projected centre `proj`.  `cosF`/`sinF` stand for
`Math.cos`/`Math.sin`. -/
def transformPoly (width fov : ℚ) (cosF sinF : ℚ → ℚ) (proj : Pt)
    (angle z : ℚ) (poly : List Pt) : List Pt :=
  let scale := width / (z * fov) * (1 / 2)
  poly.map fun pt =>
    let rx := cosF angle * pt.x - sinF angle * pt.y
    let ry := sinF angle * pt.x + cosF angle * pt.y
    ⟨proj.x + rx * scale, proj.y + ry * scale⟩

/-- The four corners of the craft rectangle, in the order `checkCollision`
tests them. -/
def spaceshipCorners (r : Ship) : List Pt :=
  [⟨r.x, r.y⟩, ⟨r.x + r.width, r.y⟩, ⟨r.x, r.y + r.height⟩,
   ⟨r.x + r.width, r.y + r.height⟩]

/-- The midpoints of the four edges of the craft rectangle (top, bottom,
left, right), in the order `checkCollision` tests them. -/
def edgeCenters (r : Ship) : List Pt :=
  [⟨r.x + r.width / 2, r.y⟩, ⟨r.x + r.width / 2, r.y + r.height⟩,
   ⟨r.x, r.y + r.height / 2⟩, ⟨r.x + r.width, r.y + r.height / 2⟩]

/-- The centre of the craft rectangle. -/
def rectCenter (r : Ship) : Pt :=
  ⟨r.x + r.width / 2, r.y + r.height / 2⟩

/-- The nine sample points of the craft rectangle: four corners, four edge
midpoints, centre. -/
def samplePoints (r : Ship) : List Pt :=
  spaceshipCorners r ++ edgeCenters r ++ [rectCenter r]

/-- The transformed outer polygon of an asteroid, exactly as `checkCollision`
computes it: project the centre, then rotate/scale/translate `outer`. -/
def asteroidPoly (width height fov aspect : ℚ) (cosF sinF : ℚ → ℚ)
    (a : Asteroid) : List Pt :=
  transformPoly width fov cosF sinF
    (projectStar a.x a.y a.z width height fov aspect) a.angle a.z a.outer

/-- The per-asteroid body of `checkCollision`: test the corners, then the
edge midpoints, then the centre of the craft rectangle against the
transformed outer polygon; any containment is a hit. -/
def asteroidHit (width height fov aspect : ℚ) (cosF sinF : ℚ → ℚ)
    (r : Ship) (a : Asteroid) : Bool :=
  let poly := asteroidPoly width height fov aspect cosF sinF a
  (spaceshipCorners r).any (fun c => pointInPolygon c poly) ||
    ((edgeCenters r).any (fun c => pointInPolygon c poly) ||
      pointInPolygon (rectCenter r) poly)

/-- `checkCollision` from `asteroidGenerator.ts`: early-return scan over the
asteroid list. -/
def checkCollision (width height fov aspect : ℚ) (cosF sinF : ℚ → ℚ)
    (spaceship : Ship) (asteroids : List Asteroid) : Bool :=
  asteroids.any (asteroidHit width height fov aspect cosF sinF spaceship)

/-! ### Constants of `GameCanvas` (the latest variant, `src/unnamed/part_003`) -/

def INITIAL_SPEED : ℚ := 1 / 20

def SPEED_INCREMENT : ℚ := 5 / 10000

def AFTERBURNER_SPEED_MULTIPLIER : ℚ := 3

def AFTERBURNER_SCORE_MULTIPLIER : ℚ := 2

def STARFIELD_DEPTH : ℚ := 1200

def ASTEROID_MIN_Z_FACTOR : ℚ := 85

def ASTEROID_MAX_Z_FACTOR : ℚ := 120

def ASTEROID_MIN_SPEED : ℚ := 10

def ASTEROID_MAX_SPEED : ℚ := 20

def MAX_MANEUVER_SPEED : ℚ := 18

def BASE_MANEUVER_SPEED : ℚ := 2

def MANEUVER_RAMP : ℚ := 10

def INITIAL_FUEL : ℚ := 100

def FUEL_DRAIN_RATE : ℚ := 3 / 1000

def AFTERBURNER_FUEL_DRAIN_RATE : ℚ := 15 / 1000

def MIN_FUEL_BONUS : ℚ := 10

def MAX_FUEL_BONUS : ℚ := 50

def FUEL_RADIUS_MIN_PERCENT : ℚ := 1 / 10

def FUEL_RADIUS_MAX_PERCENT : ℚ := 25

def STAR_FADE_IN_RATE : ℚ := 1 / 100

def AFTERBURNER_ACCELERATION_RATE : ℚ := 1 / 5

def SPACESHIP_WIDTH_PERCENT : ℚ := 12

def SPACESHIP_HEIGHT_PERCENT : ℚ := 18

/-- `Math.round`: round half away from zero only for positive halves; JS
rounds `x` to `⌊x + 0.5⌋`. -/
def jsRound (q : ℚ) : ℤ := ⌊q + 1 / 2⌋

/-- `Math.sign`. -/
def jsSign (q : ℚ) : ℚ := if 0 < q then 1 else if q < 0 then -1 else 0

/-- A concrete instantiation of the abstract `sqrtF` oracle, agreeing with
the real square root on every radicand the concrete fixtures evaluate it at
(`0` and `1000000 = 1000²`; the fixture polygons are chosen so only perfect
squares reach the square root). -/
def sqrtVals : ℚ → ℚ := fun q => if q = 1000000 then 1000 else 0

/-- `distanceToLineSegment` from `GameCanvas`: point-to-segment distance,
clamping the projection parameter `t` to `[0, 1]`, with the degenerate
zero-length-segment guard.  `sqrtF` stands for `Math.sqrt`. -/
def distanceToLineSegment (sqrtF : ℚ → ℚ) (p v w : Pt) : ℚ :=
  let lengthSquared := (w.x - v.x) ^ 2 + (w.y - v.y) ^ 2
  if lengthSquared = 0 then
    sqrtF ((p.x - v.x) ^ 2 + (p.y - v.y) ^ 2)
  else
    let t0 := ((p.x - v.x) * (w.x - v.x) + (p.y - v.y) * (w.y - v.y)) / lengthSquared
    let t := max 0 (min 1 t0)
    sqrtF ((p.x - (v.x + t * (w.x - v.x))) ^ 2 + (p.y - (v.y + t * (w.y - v.y))) ^ 2)

/-- The `closestDistance` loop of the proximity test: minimum distance from
`c` to any edge segment of `poly`, starting from `Infinity` (modelled as
`none`). -/
def closestDistanceToPoly (sqrtF : ℚ → ℚ) (c : Pt) (poly : List Pt) : Option ℚ :=
  (List.range poly.length).foldl
    (fun acc i =>
      let p1 := poly.getD i ⟨0, 0⟩
      let p2 := poly.getD ((i + 1) % poly.length) ⟨0, 0⟩
      let d := distanceToLineSegment sqrtF c p1 p2
      match acc with
      | none => some d
      | some m => some (min m d))
    none

/-- The fuel-bonus decision of `updateGame` (lines 497-549), applied to the
already-computed closest distance `dist` (`none` = `Infinity`): inside the
maximum radius and with the asteroid's one-shot flag still unset, add a
bonus of `round(MIN + (MAX - MIN) * ratio)` clamped at `INITIAL_FUEL`, and
set the flag; the inner guard additionally requires a strictly positive
distance ratio. -/
def awardFuelBonus (width fuel : ℚ) (dist : Option ℚ) (flag : Bool) : ℚ × Bool :=
  let maxDistance := FUEL_RADIUS_MAX_PERCENT / 100 * width * 8000
  let minDistance := FUEL_RADIUS_MIN_PERCENT / 100 * width * 8000
  match dist with
  | none => (fuel, flag)
  | some d =>
    if d ≤ maxDistance ∧ flag = false then
      let distanceRatio := 1 - max 0 ((d - minDistance) / (maxDistance - minDistance))
      if 0 < distanceRatio then
        let bonusAmount : ℚ :=
          ((jsRound (MIN_FUEL_BONUS + (MAX_FUEL_BONUS - MIN_FUEL_BONUS) * distanceRatio) : ℤ) : ℚ)
        (min INITIAL_FUEL (fuel + bonusAmount), true)
      else (fuel, flag)
    else (fuel, flag)

/-- One iteration of the proximity `forEach` of `updateGame`: project the
asteroid's centre, transform its outer polygon, compute the closest distance
from the craft's centre, and apply the fuel-bonus decision; returns the new
fuel level and the asteroid with its (possibly updated) one-shot flag. -/
def proximityAsteroid (width height fov aspect : ℚ) (sqrtF cosF sinF : ℚ → ℚ)
    (ship : Ship) (fuel : ℚ) (a : Asteroid) : ℚ × Asteroid :=
  let shipCenter : Pt := ⟨ship.x + ship.width / 2, ship.y + ship.height / 2⟩
  let transformed := asteroidPoly width height fov aspect cosF sinF a
  let dist := closestDistanceToPoly sqrtF shipCenter transformed
  let res := awardFuelBonus width fuel dist a.gaveFuelBonus
  (res.1, { a with gaveFuelBonus := res.2 })

/-- The `visibleAsteroids` filter of `updateGame` (line 446):
`a.z < STARFIELD_DEPTH && a.z > 0`. -/
def isVisible (a : Asteroid) : Bool :=
  decide (a.z < STARFIELD_DEPTH) && decide (0 < a.z)

/-- The proximity `forEach` over `visibleAsteroids`, threading the fuel level
and updating the one-shot flags in place in the full asteroid list (the JS
filter shares the underlying objects). -/
def proximityFold (width height fov aspect : ℚ) (sqrtF cosF sinF : ℚ → ℚ)
    (ship : Ship) : ℚ → List Asteroid → ℚ × List Asteroid
  | fuel, [] => (fuel, [])
  | fuel, a :: rest =>
    if isVisible a then
      let r := proximityAsteroid width height fov aspect sqrtF cosF sinF ship fuel a
      let r2 := proximityFold width height fov aspect sqrtF cosF sinF ship r.1 rest
      (r2.1, r.2 :: r2.2)
    else
      let r2 := proximityFold width height fov aspect sqrtF cosF sinF ship fuel rest
      (r2.1, a :: r2.2)

/-- `calculateManeuverSpeed`: base speed ramped with global speed toward the
cap, scaled to one-tenth when fuel is depleted. -/
def calculateManeuverSpeed (speed fuel : ℚ) : ℚ :=
  let base :=
    min (BASE_MANEUVER_SPEED +
          (MAX_MANEUVER_SPEED - BASE_MANEUVER_SPEED) *
            min 1 ((speed - INITIAL_SPEED) / MANEUVER_RAMP))
      MAX_MANEUVER_SPEED
  if fuel ≤ 0 then base * (1 / 10) else base

/-- The sequential position clamp of `updateGame` (lines 597-600) on one
axis: first floor at `0`, then cap so the rectangle's far edge stays at
`limit`. -/
def clampPos (limit size pos : ℚ) : ℚ :=
  let p1 := if pos < 0 then 0 else pos
  if p1 + size > limit then limit - size else p1

/-- The mutable simulation state owned by `GameCanvas`: canvas dimensions,
progression refs (`fuelRef`, `afterburnerActiveRef`, `currentAccelerationRef`,
`speedRef`, `scoreRef`), the craft, the shared input snapshot
(`velocityRef`, `isMouseControlRef`, `mousePositionRef`), both entity fields
and the game-over latch.  The wall-clock-driven fuel popups are UI-only
("not part of simulation truth" per the design) and are not modelled. -/
structure GameState where
  width : ℚ
  height : ℚ
  fuel : ℚ
  afterburner : Bool
  accel : ℚ
  speed : ℚ
  score : ℚ
  ship : Ship
  velX : ℚ
  velY : ℚ
  mouseControl : Bool
  mouseX : ℚ
  mouseY : ℚ
  stars : List Star
  asteroids : List Asteroid
  gameOver : Bool
deriving DecidableEq, Repr

/-- The random draws consumed when a star is recycled (lines 622-628):
fresh screen position `sx, sy ∈ [0,1]` and the raw draws for size and
speed. -/
structure StarGen where
  sx : ℚ
  sy : ℚ
  rsize : ℚ
  rspeed : ℚ
deriving DecidableEq, Repr

/-- The random draws consumed by `generateAsteroid3D`.  The depth draw `rz`,
screen position `sx, sy` and the size/speed draws are kept explicit because
the generator combines them arithmetically; the polygon ring, the holes and
the angle/spin are produced by trigonometric jitter on further draws
(irrational in general) and are therefore supplied already-drawn. -/
structure AstGen where
  rz : ℚ
  sx : ℚ
  sy : ℚ
  rsize : ℚ
  rspeed : ℚ
  outer : List Pt
  holes : List (List Pt)
  angle : ℚ
  spin : ℚ
deriving DecidableEq, Repr

/-- `generateAsteroid3D` from `Asteroids.ts`: depth
`z = STARFIELD_DEPTH * (minZFactor + rz * (maxZFactor - minZFactor))`,
centre back-projected from the biased screen draw at that depth,
`size = 500 + rsize * 1200`, `speed = minSpeed + rspeed * (maxSpeed -
minSpeed)`, initial opacity `0`; the polygon, holes, angle and spin come from
the oracle record; `gaveFuelBonus` is absent on a fresh object (falsy). -/
def generateAsteroid3D (width height fov : ℚ)
    (minZFactor maxZFactor minSpeed maxSpeed : ℚ) (g : AstGen) : Asteroid :=
  let aspect := width / height
  let z := STARFIELD_DEPTH * (minZFactor + g.rz * (maxZFactor - minZFactor))
  let x := (g.sx - 1 / 2) * 2 * z * fov / aspect
  let y := (g.sy - 1 / 2) * 2 * z * fov
  let size := 500 + g.rsize * 1200
  let speed := minSpeed + g.rspeed * (maxSpeed - minSpeed)
  { x := x, y := y, z := z, size := size, speed := speed, outer := g.outer,
    holes := g.holes, angle := g.angle, spin := g.spin, opacity := 0,
    gaveFuelBonus := false }

/-- The per-star body of the starfield update (lines 603-633): record the
previous projection while `z > 0`, decrement `z` by the capped star speed,
fade opacity in, and recycle at the far depth (fresh back-projected
position, fresh size/speed, cleared `px`/`py`, opacity `0`) once past the
near plane or projected off screen. -/
def advanceStar (width height fov aspect speed mult : ℚ) (g : StarGen)
    (star : Star) : Star :=
  let star1 :=
    if 0 < star.z then
      let prevProj := projectStar star.x star.y star.z width height fov aspect
      { star with px := some prevProj.x, py := some prevProj.y }
    else star
  let starSpeed := min (5 / 2) (speed * star1.speed * (5 / 1000) * mult)
  let star2 := { star1 with z := star1.z - starSpeed,
                            opacity := min 1 (star1.opacity + STAR_FADE_IN_RATE) }
  let proj := projectStar star2.x star2.y star2.z width height fov aspect
  if star2.z < 10 ∨ proj.x < 0 ∨ proj.x > width ∨ proj.y < 0 ∨ proj.y > height then
    let z := STARFIELD_DEPTH
    { star2 with
      z := z
      x := (g.sx - 1 / 2) * 2 * z * fov / aspect
      y := (g.sy - 1 / 2) * 2 * z * fov
      size := 1 + g.rsize * 2
      speed := 1 + g.rspeed * 2
      px := none
      py := none
      opacity := 0 }
  else star2

/-- The per-asteroid body of the asteroid update (lines 635-682): decrement
`z`, accumulate the spin, recompute the quadratic ease-in opacity, and
recycle (regenerate in place via `generateAsteroid3D`, opacity `0`,
`gaveFuelBonus` reset to `false`; the `holes` field is not copied by the
source) once past the near plane or projected off screen by more than
`size`. -/
def advanceAsteroid (width height fov aspect speed mult : ℚ) (g : AstGen)
    (a : Asteroid) : Asteroid :=
  let a1 := { a with z := a.z - speed * a.speed * mult, angle := a.angle + a.spin }
  let spawnZ := STARFIELD_DEPTH * ASTEROID_MAX_Z_FACTOR
  let visibleStartZ := STARFIELD_DEPTH * ASTEROID_MIN_Z_FACTOR
  let fadeDistance := spawnZ - visibleStartZ
  let distanceFromSpawn := spawnZ - a1.z
  let baseT := max 0 (min 1 (distanceFromSpawn / fadeDistance))
  let smoothT := baseT * baseT
  let a2 := { a1 with opacity := min 1 (max 0 smoothT) }
  let proj := projectStar a2.x a2.y a2.z width height fov aspect
  if a2.z < 10 ∨ proj.x < -a2.size ∨ proj.x > width + a2.size ∨
       proj.y < -a2.size ∨ proj.y > height + a2.size then
    let n := generateAsteroid3D width height fov ASTEROID_MIN_Z_FACTOR
      ASTEROID_MAX_Z_FACTOR ASTEROID_MIN_SPEED ASTEROID_MAX_SPEED g
    { a2 with x := n.x, y := n.y, z := n.z, size := n.size, speed := n.speed,
              outer := n.outer, angle := n.angle, spin := n.spin,
              opacity := 0, gaveFuelBonus := false }
  else a2

/-- The afterburner-accelerator update of `updateGame` (lines 552-557): ramp
toward the cap while the afterburner is engaged and fuel remains, otherwise
reset the multiplier to `1` immediately. -/
def accelUpdate (afterburner : Bool) (fuel accel : ℚ) : ℚ :=
  if afterburner = true ∧ 0 < fuel then
    min AFTERBURNER_SPEED_MULTIPLIER (accel + AFTERBURNER_ACCELERATION_RATE)
  else 1

/-- The fuel-drain step of `updateGame` (lines 433-441): while fuel remains,
subtract the drain rate for the current afterburner mode, floored at `0`;
once fuel is exhausted, force the afterburner off. -/
def drainStep (s : GameState) : GameState :=
  if 0 < s.fuel then
    { s with fuel := max 0 (s.fuel -
        (if s.afterburner then AFTERBURNER_FUEL_DRAIN_RATE else FUEL_DRAIN_RATE)) }
  else { s with afterburner := false }

/-- The proximity/fuel-bonus step (lines 443-550), reading the current craft
and asteroid positions. -/
def proximityStep (fov : ℚ) (sqrtF cosF sinF : ℚ → ℚ) (s : GameState) : GameState :=
  let aspect := s.width / s.height
  let r := proximityFold s.width s.height fov aspect sqrtF cosF sinF s.ship
    s.fuel s.asteroids
  { s with fuel := r.1, asteroids := r.2 }

/-- The accelerator step (lines 552-558). -/
def accelStep (s : GameState) : GameState :=
  { s with accel := accelUpdate s.afterburner s.fuel s.accel }

/-- The speed/score step (lines 560-568): while fuel remains, grow the global
speed by the increment scaled by the acceleration multiplier and the score
by `0.01`, doubled under afterburner. -/
def speedScoreStep (s : GameState) : GameState :=
  if 0 < s.fuel then
    { s with speed := s.speed + SPEED_INCREMENT * s.accel,
             score := s.score + 1 / 100 *
               (if s.afterburner then AFTERBURNER_SCORE_MULTIPLIER else 1) }
  else s

/-- The craft step (lines 570-600): rescale the craft to the viewport
percentages, derive the homing velocity in pointer mode, apply the velocity
and clamp both axes to the viewport. -/
def craftStep (s : GameState) : GameState :=
  let shipW := SPACESHIP_WIDTH_PERCENT / 100 * s.width
  let shipH := SPACESHIP_HEIGHT_PERCENT / 100 * s.height
  let maneuverSpeed := calculateManeuverSpeed s.speed s.fuel
  let velX :=
    if s.mouseControl then
      let dx := (s.mouseX - shipW / 2) - s.ship.x
      if |dx| < maneuverSpeed then dx else jsSign dx * maneuverSpeed
    else s.velX
  let velY :=
    if s.mouseControl then
      let dy := (s.mouseY - shipH / 2) - s.ship.y
      if |dy| < maneuverSpeed then dy else jsSign dy * maneuverSpeed
    else s.velY
  let x := clampPos s.width shipW (s.ship.x + velX)
  let y := clampPos s.height shipH (s.ship.y + velY)
  { s with ship := ⟨x, y, shipW, shipH⟩, velX := velX, velY := velY }

/-- The starfield step (lines 602-633). -/
def starStep (fov : ℚ) (genS : ℕ → StarGen) (s : GameState) : GameState :=
  let aspect := s.width / s.height
  { s with stars := (List.enum s.stars).map fun p =>
      advanceStar s.width s.height fov aspect s.speed s.accel (genS p.1) p.2 }

/-- The asteroid-field step (lines 634-682). -/
def astStep (fov : ℚ) (genA : ℕ → AstGen) (s : GameState) : GameState :=
  let aspect := s.width / s.height
  { s with asteroids := (List.enum s.asteroids).map fun p =>
      advanceAsteroid s.width s.height fov aspect s.speed s.accel (genA p.1) p.2 }

/-- The collision step (lines 692-704): run `checkCollision` on the craft
against the asteroids selected by the supplied visibility mask (the source
passes `visibleAsteroids`, whose membership was fixed when the mask was
computed but whose objects were mutated in place since), and latch
`gameOver` on a hit. -/
def collisionStep (fov : ℚ) (cosF sinF : ℚ → ℚ) (mask : List Bool)
    (s : GameState) : GameState :=
  let aspect := s.width / s.height
  let visible := ((mask.zip s.asteroids).filter (fun p => p.1)).map (fun p => p.2)
  if checkCollision s.width s.height fov aspect cosF sinF s.ship visible then
    { s with gameOver := true }
  else s

/-- `updateGame` from `GameCanvas` (lines 400-705), one simulation tick: an
early return when the game is over, then, in source order, the fuel drain,
the `visibleAsteroids` mask, the proximity/fuel-bonus pass, the accelerator
ramp, the speed/score growth, the craft movement, the starfield advance, the
asteroid advance, and finally the collision test over the asteroids selected
by the mask taken before the advance. -/
def updateGame (fov : ℚ) (sqrtF cosF sinF : ℚ → ℚ) (genS : ℕ → StarGen)
    (genA : ℕ → AstGen) (s : GameState) : GameState :=
  if s.gameOver then s
  else
    let s1 := drainStep s
    let mask := s1.asteroids.map isVisible
    let s2 := proximityStep fov sqrtF cosF sinF s1
    let s3 := accelStep s2
    let s4 := speedScoreStep s3
    let s5 := craftStep s4
    let s6 := starStep fov genS s5
    let s7 := astStep fov genA s6
    collisionStep fov cosF sinF mask s7

/-- The tick as the specification's §4.6 step list orders it (claim C3):
(1) fuel drain; (2) accelerator ramp; (3) speed/score; (4) craft, starfield
and asteroid advance; (5) proximity checks and fuel bonuses; (6) collision
test — with the visibility filters evaluated where the steps run.  This
definition follows the spec's words and exists to be compared with
`updateGame`. -/
def updateGameSpecOrder (fov : ℚ) (sqrtF cosF sinF : ℚ → ℚ) (genS : ℕ → StarGen)
    (genA : ℕ → AstGen) (s : GameState) : GameState :=
  if s.gameOver then s
  else
    let s1 := drainStep s
    let s2 := accelStep s1
    let s3 := speedScoreStep s2
    let s4 := craftStep s3
    let s5 := starStep fov genS s4
    let s6 := astStep fov genA s5
    let s7 := proximityStep fov sqrtF cosF sinF s6
    collisionStep fov cosF sinF (s7.asteroids.map isVisible) s7

/-- The per-tick environment: the projection scalars and irrational-function
oracles, the per-entity recycle draws, and the input snapshot the
keyboard/pointer handlers may have written between ticks (afterburner flag,
axis velocities, pointer mode and position). -/
structure TickEnv where
  fov : ℚ
  sqrtF : ℚ → ℚ
  cosF : ℚ → ℚ
  sinF : ℚ → ℚ
  genS : ℕ → StarGen
  genA : ℕ → AstGen
  inAfterburner : Bool
  inVelX : ℚ
  inVelY : ℚ
  inMouseControl : Bool
  inMouseX : ℚ
  inMouseY : ℚ

/-- Write the input snapshot of `env` into the state, as the event handlers
do between ticks. -/
def applyInputs (env : TickEnv) (s : GameState) : GameState :=
  { s with afterburner := env.inAfterburner, velX := env.inVelX,
           velY := env.inVelY, mouseControl := env.inMouseControl,
           mouseX := env.inMouseX, mouseY := env.inMouseY }

/-- One tick preceded by an arbitrary input write. -/
def runTick (env : TickEnv) (s : GameState) : GameState :=
  updateGame env.fov env.sqrtF env.cosF env.sinF env.genS env.genA
    (applyInputs env s)

/-- A sequence of ticks. -/
def runTicks : List TickEnv → GameState → GameState
  | [], s => s
  | env :: rest, s => runTicks rest (runTick env s)

/-! ### The high-score store (`localStorage` read at mount, conditional write
on the game-over transition). -/

/-- The high-score state: the externally stored integer value and the
in-memory `highScore` React state. -/
structure HighScoreState where
  stored : ℤ
  highScore : ℚ
deriving DecidableEq, Repr

/-- Startup (`useState` initializer, lines 117-120): read the stored value
once into the in-memory high score. -/
def readHighScore (stored : ℤ) : HighScoreState :=
  ⟨stored, (stored : ℚ)⟩

/-- The game-over effect (lines 886-896): when the final score exceeds the
in-memory high score, update it and write the floored score to the store;
otherwise do nothing.  Returns the new state and whether a write was
invoked. -/
def gameOverHighScore (s : HighScoreState) (score : ℚ) : HighScoreState × Bool :=
  if s.highScore < score then (⟨⌊score⌋, score⟩, true) else (s, false)

/-- One record per `RUNNING → GAME_OVER` transition: the state before, the
final score, the state after, and whether the store's write operation was
invoked. -/
structure HSEvent where
  before : HighScoreState
  score : ℚ
  after : HighScoreState
  wrote : Bool
deriving DecidableEq, Repr

/-- The event log of a sequence of game-over transitions. -/
def highScoreTrace : HighScoreState → List ℚ → List HSEvent
  | _, [] => []
  | s, sc :: rest =>
    let r := gameOverHighScore s sc
    ⟨s, sc, r.1, r.2⟩ :: highScoreTrace r.1 rest

/-! ### Back-projection (`createStarfield` / starfield initialization):
screen-space sample `(sx, sy) ∈ [0,1]²` back-projected to camera space at
depth `z`. -/

/-- `x = ((sx - 0.5) * 2 * z * fov) / aspect` (line 185 / `Starfield.ts`
line 17). -/
def backProjectX (sx z fov aspect : ℚ) : ℚ := (sx - 1 / 2) * 2 * z * fov / aspect

/-- `y = ((sy - 0.5) * 2 * z * fov)` (line 186 / `Starfield.ts` line 18). -/
def backProjectY (sy z fov : ℚ) : ℚ := (sy - 1 / 2) * 2 * z * fov

/-! ### Field-preservation lemmas for the tick steps -/

@[simp] lemma drainStep_width (s : GameState) : (drainStep s).width = s.width := by
  unfold drainStep; split <;> rfl

@[simp] lemma drainStep_height (s : GameState) : (drainStep s).height = s.height := by
  unfold drainStep; split <;> rfl

@[simp] lemma drainStep_accel (s : GameState) : (drainStep s).accel = s.accel := by
  unfold drainStep; split <;> rfl

@[simp] lemma drainStep_speed (s : GameState) : (drainStep s).speed = s.speed := by
  unfold drainStep; split <;> rfl

@[simp] lemma drainStep_score (s : GameState) : (drainStep s).score = s.score := by
  unfold drainStep; split <;> rfl

@[simp] lemma drainStep_ship (s : GameState) : (drainStep s).ship = s.ship := by
  unfold drainStep; split <;> rfl

@[simp] lemma drainStep_stars (s : GameState) : (drainStep s).stars = s.stars := by
  unfold drainStep; split <;> rfl

@[simp] lemma drainStep_asteroids (s : GameState) :
    (drainStep s).asteroids = s.asteroids := by
  unfold drainStep; split <;> rfl

@[simp] lemma drainStep_gameOver (s : GameState) :
    (drainStep s).gameOver = s.gameOver := by
  unfold drainStep; split <;> rfl

lemma drainStep_fuel (s : GameState) :
    (drainStep s).fuel = if 0 < s.fuel then
      max 0 (s.fuel - (if s.afterburner then AFTERBURNER_FUEL_DRAIN_RATE
        else FUEL_DRAIN_RATE))
    else s.fuel := by
  unfold drainStep; split <;> simp_all

lemma drainStep_afterburner (s : GameState) :
    (drainStep s).afterburner = if 0 < s.fuel then s.afterburner else false := by
  unfold drainStep; split <;> simp_all

@[simp] lemma proximityStep_width (fov : ℚ) (sqrtF cosF sinF : ℚ → ℚ)
    (s : GameState) : (proximityStep fov sqrtF cosF sinF s).width = s.width := rfl

@[simp] lemma proximityStep_height (fov : ℚ) (sqrtF cosF sinF : ℚ → ℚ)
    (s : GameState) : (proximityStep fov sqrtF cosF sinF s).height = s.height := rfl

@[simp] lemma proximityStep_afterburner (fov : ℚ) (sqrtF cosF sinF : ℚ → ℚ)
    (s : GameState) :
    (proximityStep fov sqrtF cosF sinF s).afterburner = s.afterburner := rfl

@[simp] lemma proximityStep_accel (fov : ℚ) (sqrtF cosF sinF : ℚ → ℚ)
    (s : GameState) : (proximityStep fov sqrtF cosF sinF s).accel = s.accel := rfl

@[simp] lemma proximityStep_speed (fov : ℚ) (sqrtF cosF sinF : ℚ → ℚ)
    (s : GameState) : (proximityStep fov sqrtF cosF sinF s).speed = s.speed := rfl

@[simp] lemma proximityStep_score (fov : ℚ) (sqrtF cosF sinF : ℚ → ℚ)
    (s : GameState) : (proximityStep fov sqrtF cosF sinF s).score = s.score := rfl

@[simp] lemma proximityStep_ship (fov : ℚ) (sqrtF cosF sinF : ℚ → ℚ)
    (s : GameState) : (proximityStep fov sqrtF cosF sinF s).ship = s.ship := rfl

@[simp] lemma proximityStep_stars (fov : ℚ) (sqrtF cosF sinF : ℚ → ℚ)
    (s : GameState) : (proximityStep fov sqrtF cosF sinF s).stars = s.stars := rfl

@[simp] lemma proximityStep_gameOver (fov : ℚ) (sqrtF cosF sinF : ℚ → ℚ)
    (s : GameState) :
    (proximityStep fov sqrtF cosF sinF s).gameOver = s.gameOver := rfl

lemma proximityStep_fuel (fov : ℚ) (sqrtF cosF sinF : ℚ → ℚ) (s : GameState) :
    (proximityStep fov sqrtF cosF sinF s).fuel =
      (proximityFold s.width s.height fov (s.width / s.height) sqrtF cosF sinF
        s.ship s.fuel s.asteroids).1 := rfl

@[simp] lemma accelStep_fuel (s : GameState) : (accelStep s).fuel = s.fuel := rfl

@[simp] lemma accelStep_width (s : GameState) : (accelStep s).width = s.width := rfl

@[simp] lemma accelStep_height (s : GameState) : (accelStep s).height = s.height := rfl

@[simp] lemma accelStep_afterburner (s : GameState) :
    (accelStep s).afterburner = s.afterburner := rfl

@[simp] lemma accelStep_speed (s : GameState) : (accelStep s).speed = s.speed := rfl

@[simp] lemma accelStep_score (s : GameState) : (accelStep s).score = s.score := rfl

@[simp] lemma accelStep_ship (s : GameState) : (accelStep s).ship = s.ship := rfl

@[simp] lemma accelStep_stars (s : GameState) : (accelStep s).stars = s.stars := rfl

@[simp] lemma accelStep_asteroids (s : GameState) :
    (accelStep s).asteroids = s.asteroids := rfl

@[simp] lemma accelStep_gameOver (s : GameState) :
    (accelStep s).gameOver = s.gameOver := rfl

@[simp] lemma accelStep_accel (s : GameState) :
    (accelStep s).accel = accelUpdate s.afterburner s.fuel s.accel := rfl

@[simp] lemma speedScoreStep_fuel (s : GameState) :
    (speedScoreStep s).fuel = s.fuel := by
  unfold speedScoreStep; split <;> rfl

@[simp] lemma speedScoreStep_width (s : GameState) :
    (speedScoreStep s).width = s.width := by
  unfold speedScoreStep; split <;> rfl

@[simp] lemma speedScoreStep_height (s : GameState) :
    (speedScoreStep s).height = s.height := by
  unfold speedScoreStep; split <;> rfl

@[simp] lemma speedScoreStep_afterburner (s : GameState) :
    (speedScoreStep s).afterburner = s.afterburner := by
  unfold speedScoreStep; split <;> rfl

@[simp] lemma speedScoreStep_accel (s : GameState) :
    (speedScoreStep s).accel = s.accel := by
  unfold speedScoreStep; split <;> rfl

@[simp] lemma speedScoreStep_ship (s : GameState) :
    (speedScoreStep s).ship = s.ship := by
  unfold speedScoreStep; split <;> rfl

@[simp] lemma speedScoreStep_stars (s : GameState) :
    (speedScoreStep s).stars = s.stars := by
  unfold speedScoreStep; split <;> rfl

@[simp] lemma speedScoreStep_asteroids (s : GameState) :
    (speedScoreStep s).asteroids = s.asteroids := by
  unfold speedScoreStep; split <;> rfl

@[simp] lemma speedScoreStep_gameOver (s : GameState) :
    (speedScoreStep s).gameOver = s.gameOver := by
  unfold speedScoreStep; split <;> rfl

lemma speedScoreStep_speed (s : GameState) :
    (speedScoreStep s).speed =
      if 0 < s.fuel then s.speed + SPEED_INCREMENT * s.accel else s.speed := by
  unfold speedScoreStep; split <;> simp_all

@[simp] lemma craftStep_fuel (s : GameState) : (craftStep s).fuel = s.fuel := rfl

@[simp] lemma craftStep_width (s : GameState) : (craftStep s).width = s.width := rfl

@[simp] lemma craftStep_height (s : GameState) : (craftStep s).height = s.height := rfl

@[simp] lemma craftStep_afterburner (s : GameState) :
    (craftStep s).afterburner = s.afterburner := rfl

@[simp] lemma craftStep_accel (s : GameState) : (craftStep s).accel = s.accel := rfl

@[simp] lemma craftStep_speed (s : GameState) : (craftStep s).speed = s.speed := rfl

@[simp] lemma craftStep_score (s : GameState) : (craftStep s).score = s.score := rfl

@[simp] lemma craftStep_stars (s : GameState) : (craftStep s).stars = s.stars := rfl

@[simp] lemma craftStep_asteroids (s : GameState) :
    (craftStep s).asteroids = s.asteroids := rfl

@[simp] lemma craftStep_gameOver (s : GameState) :
    (craftStep s).gameOver = s.gameOver := rfl

@[simp] lemma starStep_fuel (fov : ℚ) (genS : ℕ → StarGen) (s : GameState) :
    (starStep fov genS s).fuel = s.fuel := rfl

@[simp] lemma starStep_width (fov : ℚ) (genS : ℕ → StarGen) (s : GameState) :
    (starStep fov genS s).width = s.width := rfl

@[simp] lemma starStep_height (fov : ℚ) (genS : ℕ → StarGen) (s : GameState) :
    (starStep fov genS s).height = s.height := rfl

@[simp] lemma starStep_afterburner (fov : ℚ) (genS : ℕ → StarGen) (s : GameState) :
    (starStep fov genS s).afterburner = s.afterburner := rfl

@[simp] lemma starStep_accel (fov : ℚ) (genS : ℕ → StarGen) (s : GameState) :
    (starStep fov genS s).accel = s.accel := rfl

@[simp] lemma starStep_speed (fov : ℚ) (genS : ℕ → StarGen) (s : GameState) :
    (starStep fov genS s).speed = s.speed := rfl

@[simp] lemma starStep_ship (fov : ℚ) (genS : ℕ → StarGen) (s : GameState) :
    (starStep fov genS s).ship = s.ship := rfl

@[simp] lemma starStep_asteroids (fov : ℚ) (genS : ℕ → StarGen) (s : GameState) :
    (starStep fov genS s).asteroids = s.asteroids := rfl

@[simp] lemma starStep_gameOver (fov : ℚ) (genS : ℕ → StarGen) (s : GameState) :
    (starStep fov genS s).gameOver = s.gameOver := rfl

@[simp] lemma astStep_fuel (fov : ℚ) (genA : ℕ → AstGen) (s : GameState) :
    (astStep fov genA s).fuel = s.fuel := rfl

@[simp] lemma astStep_width (fov : ℚ) (genA : ℕ → AstGen) (s : GameState) :
    (astStep fov genA s).width = s.width := rfl

@[simp] lemma astStep_height (fov : ℚ) (genA : ℕ → AstGen) (s : GameState) :
    (astStep fov genA s).height = s.height := rfl

@[simp] lemma astStep_afterburner (fov : ℚ) (genA : ℕ → AstGen) (s : GameState) :
    (astStep fov genA s).afterburner = s.afterburner := rfl

@[simp] lemma astStep_accel (fov : ℚ) (genA : ℕ → AstGen) (s : GameState) :
    (astStep fov genA s).accel = s.accel := rfl

@[simp] lemma astStep_speed (fov : ℚ) (genA : ℕ → AstGen) (s : GameState) :
    (astStep fov genA s).speed = s.speed := rfl

@[simp] lemma astStep_ship (fov : ℚ) (genA : ℕ → AstGen) (s : GameState) :
    (astStep fov genA s).ship = s.ship := rfl

@[simp] lemma astStep_gameOver (fov : ℚ) (genA : ℕ → AstGen) (s : GameState) :
    (astStep fov genA s).gameOver = s.gameOver := rfl

@[simp] lemma collisionStep_fuel (fov : ℚ) (cosF sinF : ℚ → ℚ) (mask : List Bool)
    (s : GameState) : (collisionStep fov cosF sinF mask s).fuel = s.fuel := by
  unfold collisionStep; dsimp only; split <;> rfl

@[simp] lemma collisionStep_accel (fov : ℚ) (cosF sinF : ℚ → ℚ) (mask : List Bool)
    (s : GameState) : (collisionStep fov cosF sinF mask s).accel = s.accel := by
  unfold collisionStep; dsimp only; split <;> rfl

@[simp] lemma collisionStep_speed (fov : ℚ) (cosF sinF : ℚ → ℚ) (mask : List Bool)
    (s : GameState) : (collisionStep fov cosF sinF mask s).speed = s.speed := by
  unfold collisionStep; dsimp only; split <;> rfl

@[simp] lemma collisionStep_ship (fov : ℚ) (cosF sinF : ℚ → ℚ) (mask : List Bool)
    (s : GameState) : (collisionStep fov cosF sinF mask s).ship = s.ship := by
  unfold collisionStep; dsimp only; split <;> rfl

@[simp] lemma collisionStep_asteroids (fov : ℚ) (cosF sinF : ℚ → ℚ)
    (mask : List Bool) (s : GameState) :
    (collisionStep fov cosF sinF mask s).asteroids = s.asteroids := by
  unfold collisionStep; dsimp only; split <;> rfl

lemma collisionStep_gameOver (fov : ℚ) (cosF sinF : ℚ → ℚ) (mask : List Bool)
    (s : GameState) :
    (collisionStep fov cosF sinF mask s).gameOver =
      (if checkCollision s.width s.height fov (s.width / s.height) cosF sinF s.ship
          (((mask.zip s.asteroids).filter (fun p => p.1)).map (fun p => p.2))
        then true else s.gameOver) := by
  unfold collisionStep; dsimp only; split <;> simp_all

@[simp] lemma applyInputs_fuel (env : TickEnv) (s : GameState) :
    (applyInputs env s).fuel = s.fuel := rfl

@[simp] lemma applyInputs_gameOver (env : TickEnv) (s : GameState) :
    (applyInputs env s).gameOver = s.gameOver := rfl

/-! ### Concrete fixtures used by witnesses and counterexamples -/

/-- The constant-one oracle, instantiating `cosF` (angle `0`). -/
def constOne : ℚ → ℚ := fun _ => 1

/-- The constant-zero oracle, instantiating `sinF` (angle `0`). -/
def constZero : ℚ → ℚ := fun _ => 0

/-- A fixed star-recycle oracle. -/
def genSFix : ℕ → StarGen := fun _ => ⟨0, 0, 0, 0⟩

/-- A fixed asteroid-generation oracle (depth draw `0`, centred screen
position, empty polygon). -/
def genAFix : ℕ → AstGen := fun _ => ⟨0, 1 / 2, 1 / 2, 0, 0, [], [], 0, 0⟩

/-- A concrete game state on a `1000 × 500` viewport with a large velocity
pushing the craft off the right and top edges. -/
def stWitness : GameState :=
  { width := 1000, height := 500, fuel := 50, afterburner := false, accel := 1,
    speed := 1, score := 0, ship := ⟨900, 400, 120, 90⟩, velX := 5000,
    velY := -9000, mouseControl := false, mouseX := 0, mouseY := 0,
    stars := [], asteroids := [], gameOver := false }

/-- An asteroid whose one-shot bonus flag is already set. -/
def astFlagged : Asteroid :=
  { x := 600, y := 0, z := 600, size := 5, speed := 1, outer := [⟨0, 0⟩],
    holes := [], angle := 0, spin := 0, opacity := 1, gaveFuelBonus := true }

/-- A star just past the near plane (`z = 5 < 10`), with stale previous
projection fields. -/
def starNearFix : Star :=
  { x := 3, y := 4, z := 5, px := some 1, py := some 2, size := 2, speed := 1,
    opacity := 1 }

/-- An asteroid just past the near plane (`z = 5 < 10`), with its one-shot
flag set. -/
def astNearFix : Asteroid :=
  { x := 0, y := 0, z := 5, size := 5, speed := 1, outer := [⟨0, 0⟩],
    holes := [], angle := 0, spin := 0, opacity := 1, gaveFuelBonus := true }

/-- A concrete generation draw with depth draw `0`. -/
def genAValA : AstGen := ⟨0, 1 / 2, 1 / 2, 0, 0, [], [], 0, 0⟩

/-- A concrete generation draw with depth draw `1/2`. -/
def genAValB : AstGen := ⟨1 / 2, 1 / 2, 1 / 2, 0, 0, [], [], 0, 0⟩

/-- A concrete star-recycle draw. -/
def starGenVal : StarGen := ⟨1 / 4, 1 / 4, 1 / 2, 1 / 2⟩

/-- An asteroid beyond the far visibility bound (`z = 1250 ≥ 1200`) that one
advance brings to `z ≈ 1170`, projecting onto the craft's centre. -/
def astOrderFix : Asteroid :=
  { x := 0, y := 0, z := 1250, size := 5, speed := 8, outer := [⟨0, 0⟩],
    holes := [], angle := 0, spin := 0, opacity := 1, gaveFuelBonus := false }

/-- A game state whose only asteroid is `astOrderFix`; the craft centre sits
at `(500, 250)` on a `1000 × 500` viewport. -/
def stOrderFix : GameState :=
  { width := 1000, height := 500, fuel := 40, afterburner := false, accel := 1,
    speed := 10, score := 0, ship := ⟨440, 205, 120, 90⟩, velX := 0, velY := 0,
    mouseControl := false, mouseX := 0, mouseY := 0, stars := [],
    asteroids := [astOrderFix], gameOver := false }

/-- An asteroid between the near plane and the far depth (`z = 600`) whose
projected centre and entire transformed polygon lie at `x = 1500`, beyond
the right edge of the `1000`-wide viewport — fully off screen. -/
def astOffFix : Asteroid :=
  { x := 600, y := 0, z := 600, size := 5, speed := 1, outer := [⟨0, 0⟩],
    holes := [], angle := 0, spin := 0, opacity := 1, gaveFuelBonus := false }

/-- A game state whose only asteroid is the fully off-screen `astOffFix`. -/
def stOffFix : GameState :=
  { width := 1000, height := 500, fuel := 40, afterburner := false, accel := 1,
    speed := 10, score := 0, ship := ⟨440, 205, 120, 90⟩, velX := 0, velY := 0,
    mouseControl := false, mouseX := 0, mouseY := 0, stars := [],
    asteroids := [astOffFix], gameOver := false }

/-- An asteroid whose transformed outer polygon is the square
`[300, 700] × [50, 450]` centred on the craft, carrying a hole sub-polygon
whose transform is the square `[480, 520] × [230, 270]`. -/
def astHoleFix : Asteroid :=
  { x := 0, y := 0, z := 250, size := 100, speed := 1,
    outer := [⟨-100, -100⟩, ⟨100, -100⟩, ⟨100, 100⟩, ⟨-100, 100⟩],
    holes := [[⟨-10, -10⟩, ⟨10, -10⟩, ⟨10, 10⟩, ⟨-10, 10⟩]],
    angle := 0, spin := 0, opacity := 1, gaveFuelBonus := false }

/-- A craft rectangle whose centre `(500, 250)` lies inside the transformed
hole of `astHoleFix`. -/
def shipHoleFix : Ship := ⟨470, 235, 60, 30⟩

/-! ### Helper lemmas about the collision test -/

/-- `asteroidHit` holds exactly when one of the nine sample points of the
craft lies inside the transformed outer polygon. -/
lemma asteroidHit_iff (width height fov aspect : ℚ) (cosF sinF : ℚ → ℚ)
    (r : Ship) (a : Asteroid) :
    asteroidHit width height fov aspect cosF sinF r a = true ↔
      ∃ p ∈ samplePoints r,
        pointInPolygon p (asteroidPoly width height fov aspect cosF sinF a) = true := by
  simp only [asteroidHit, samplePoints, List.mem_append, List.mem_singleton,
    Bool.or_eq_true, List.any_eq_true]
  constructor
  · rintro (⟨p, hp, h⟩ | ⟨p, hp, h⟩ | h)
    · exact ⟨p, Or.inl (Or.inl hp), h⟩
    · exact ⟨p, Or.inl (Or.inr hp), h⟩
    · exact ⟨rectCenter r, Or.inr rfl, h⟩
  · rintro ⟨p, (hp | hp) | hp, h⟩
    · exact Or.inl ⟨p, hp, h⟩
    · exact Or.inr (Or.inl ⟨p, hp, h⟩)
    · exact Or.inr (Or.inr (hp ▸ h))

/-- C1.  `checkCollision` returns `true` iff some asteroid of the list
contains, inside its transformed outer polygon (rotated by the asteroid's
current angle, scaled by `width / (z * fov) * 0.5`, translated by the
projected centre), at least one of the nine sample points of the craft
rectangle (four corners, four edge midpoints, centre), containment being the
even-odd ray-casting test `pointInPolygon`. -/
theorem checkCollision_nine_point_iff (width height fov aspect : ℚ)
    (cosF sinF : ℚ → ℚ) (spaceship : Ship) (asteroids : List Asteroid) :
    checkCollision width height fov aspect cosF sinF spaceship asteroids = true ↔
      ∃ a ∈ asteroids, ∃ p ∈ samplePoints spaceship,
        pointInPolygon p
          (transformPoly width fov cosF sinF
            (projectStar a.x a.y a.z width height fov aspect) a.angle a.z
            a.outer) = true := by
  simp only [checkCollision, List.any_eq_true]
  exact exists_congr fun a => and_congr_right fun _ =>
    asteroidHit_iff width height fov aspect cosF sinF spaceship a

/-- C7.  Back-projecting a screen sample `(sx·width, sy·height)` to camera
space at depth `z` and re-projecting it with `projectStar` at the same `z`,
`fov` and aspect ratio returns the original screen point — exactly, since
the embedding computes with exact rationals. -/
theorem projection_round_trip (sx sy z fov width height : ℚ) (hz : 0 < z)
    (hfov : fov ≠ 0) (hW : 0 < width) (hH : 0 < height) :
    projectStar (backProjectX sx z fov (width / height)) (backProjectY sy z fov)
      z width height fov (width / height) = ⟨sx * width, sy * height⟩ := by
  unfold projectStar backProjectX backProjectY
  have hz' : z ≠ 0 := ne_of_gt hz
  have hW' : width ≠ 0 := ne_of_gt hW
  have hH' : height ≠ 0 := ne_of_gt hH
  rw [Pt.mk.injEq]
  constructor
  · field_simp
    ring
  · field_simp
    ring

/-- Witness for C7 at `sx = 1/4`, `sy = 3/4`, `z = 100`, `fov = 2`,
`width = 1000`, `height = 500`. -/
theorem projection_round_trip_witness :
    projectStar (backProjectX (1 / 4) 100 2 (1000 / 500))
      (backProjectY (3 / 4) 100 2) 100 1000 500 2 (1000 / 500) =
      ⟨1 / 4 * 1000, 3 / 4 * 500⟩ :=
  projection_round_trip (1 / 4) (3 / 4) 100 2 1000 500 (by norm_num)
    (by norm_num) (by norm_num) (by norm_num)

/-- The one-axis clamp keeps `[pos, pos + size]` inside `[0, limit]` as soon
as `0 ≤ size ≤ limit`. -/
lemma clampPos_bounds (limit size pos : ℚ) (_h0 : 0 ≤ size) (h1 : size ≤ limit) :
    0 ≤ clampPos limit size pos ∧ clampPos limit size pos + size ≤ limit := by
  unfold clampPos
  dsimp only
  split_ifs <;> constructor <;> linarith

/-- After the craft step (viewport rescale, velocity application,
sequential clamp), the craft rectangle lies fully inside the viewport, for
any velocity and any prior position. -/
lemma craftStep_ship_bounds (s : GameState) (hW : 0 ≤ s.width)
    (hH : 0 ≤ s.height) :
    0 ≤ (craftStep s).ship.x ∧
      (craftStep s).ship.x + (craftStep s).ship.width ≤ s.width ∧
      0 ≤ (craftStep s).ship.y ∧
      (craftStep s).ship.y + (craftStep s).ship.height ≤ s.height := by
  have hw0 : 0 ≤ SPACESHIP_WIDTH_PERCENT / 100 * s.width := by
    unfold SPACESHIP_WIDTH_PERCENT; linarith
  have hw1 : SPACESHIP_WIDTH_PERCENT / 100 * s.width ≤ s.width := by
    unfold SPACESHIP_WIDTH_PERCENT; linarith
  have hh0 : 0 ≤ SPACESHIP_HEIGHT_PERCENT / 100 * s.height := by
    unfold SPACESHIP_HEIGHT_PERCENT; linarith
  have hh1 : SPACESHIP_HEIGHT_PERCENT / 100 * s.height ≤ s.height := by
    unfold SPACESHIP_HEIGHT_PERCENT; linarith
  exact ⟨(clampPos_bounds s.width _ _ hw0 hw1).1,
    (clampPos_bounds s.width _ _ hw0 hw1).2,
    (clampPos_bounds s.height _ _ hh0 hh1).1,
    (clampPos_bounds s.height _ _ hh0 hh1).2⟩

/-- The craft of a tick's result is the craft step's result. -/
lemma updateGame_ship (fov : ℚ) (sqrtF cosF sinF : ℚ → ℚ)
    (genS : ℕ → StarGen) (genA : ℕ → AstGen) (s : GameState)
    (h : s.gameOver = false) :
    (updateGame fov sqrtF cosF sinF genS genA s).ship =
      (craftStep (speedScoreStep (accelStep
        (proximityStep fov sqrtF cosF sinF (drainStep s))))).ship := by
  simp [updateGame, h]

/-- C8.  After each position update the craft rectangle's bounds stay within
the viewport: for the craft step itself, and for the craft of a whole tick's
result. -/
theorem craft_stays_in_viewport :
    (∀ s : GameState, 0 ≤ s.width → 0 ≤ s.height →
      0 ≤ (craftStep s).ship.x ∧
        (craftStep s).ship.x + (craftStep s).ship.width ≤ s.width ∧
        0 ≤ (craftStep s).ship.y ∧
        (craftStep s).ship.y + (craftStep s).ship.height ≤ s.height) ∧
    (∀ (fov : ℚ) (sqrtF cosF sinF : ℚ → ℚ) (genS : ℕ → StarGen)
      (genA : ℕ → AstGen) (s : GameState), s.gameOver = false →
      0 ≤ s.width → 0 ≤ s.height →
      0 ≤ (updateGame fov sqrtF cosF sinF genS genA s).ship.x ∧
        (updateGame fov sqrtF cosF sinF genS genA s).ship.x +
          (updateGame fov sqrtF cosF sinF genS genA s).ship.width ≤ s.width ∧
        0 ≤ (updateGame fov sqrtF cosF sinF genS genA s).ship.y ∧
        (updateGame fov sqrtF cosF sinF genS genA s).ship.y +
          (updateGame fov sqrtF cosF sinF genS genA s).ship.height ≤
            s.height) := by
  refine ⟨craftStep_ship_bounds, ?_⟩
  intro fov sqrtF cosF sinF genS genA s h hW hH
  rw [updateGame_ship fov sqrtF cosF sinF genS genA s h]
  have hb := craftStep_ship_bounds
    (speedScoreStep (accelStep (proximityStep fov sqrtF cosF sinF (drainStep s))))
    (by simpa using hW) (by simpa using hH)
  simpa using hb

/-- Witness for C8 at a concrete state whose velocity pushes the craft far
past the right and top viewport edges. -/
theorem craft_stays_in_viewport_witness :
    (0 ≤ (craftStep stWitness).ship.x ∧
      (craftStep stWitness).ship.x + (craftStep stWitness).ship.width ≤ 1000 ∧
      0 ≤ (craftStep stWitness).ship.y ∧
      (craftStep stWitness).ship.y + (craftStep stWitness).ship.height ≤ 500) ∧
    0 ≤ (updateGame 1 sqrtVals constOne constZero genSFix genAFix
      stWitness).ship.x :=
  ⟨craft_stays_in_viewport.1 stWitness (by norm_num [stWitness])
     (by norm_num [stWitness]),
   (craft_stays_in_viewport.2 1 sqrtVals constOne constZero genSFix genAFix
     stWitness rfl (by norm_num [stWitness]) (by norm_num [stWitness])).1⟩

/-! ### Fuel-economy lemmas (C2) -/

/-- The rounded bonus amount lies in `[10, 50]` whenever the distance ratio
lies in `(0, 1]`. -/
lemma jsRound_bonus_mem (r : ℚ) (h0 : 0 < r) (h1 : r ≤ 1) :
    10 ≤ jsRound (MIN_FUEL_BONUS + (MAX_FUEL_BONUS - MIN_FUEL_BONUS) * r) ∧
      jsRound (MIN_FUEL_BONUS + (MAX_FUEL_BONUS - MIN_FUEL_BONUS) * r) ≤ 50 := by
  unfold jsRound MIN_FUEL_BONUS MAX_FUEL_BONUS
  constructor
  · rw [Int.le_floor]
    push_cast
    linarith
  · have h : (⌊(10 : ℚ) + (50 - 10) * r + 1 / 2⌋ : ℤ) < 51 := by
      rw [Int.floor_lt]
      push_cast
      linarith
    omega

/-- With the one-shot flag already set, the bonus decision changes nothing. -/
lemma awardFuelBonus_flagged (width fuel : ℚ) (d : Option ℚ) :
    awardFuelBonus width fuel d true = (fuel, true) := by
  unfold awardFuelBonus
  cases d <;> simp

/-- Strictly inside the maximum radius and with the flag unset, the bonus
decision adds a rounded amount in `[MIN_FUEL_BONUS, MAX_FUEL_BONUS]`,
clamps at `INITIAL_FUEL`, and sets the flag. -/
lemma awardFuelBonus_awards (width fuel d : ℚ) (hW : 0 < width)
    (hd : d < FUEL_RADIUS_MAX_PERCENT / 100 * width * 8000) :
    ∃ b : ℤ, MIN_FUEL_BONUS ≤ (b : ℚ) ∧ (b : ℚ) ≤ MAX_FUEL_BONUS ∧
      awardFuelBonus width fuel (some d) false =
        (min INITIAL_FUEL (fuel + (b : ℚ)), true) := by
  have hmax : FUEL_RADIUS_MAX_PERCENT / 100 * width * 8000 = 2000 * width := by
    unfold FUEL_RADIUS_MAX_PERCENT; ring
  have hmin : FUEL_RADIUS_MIN_PERCENT / 100 * width * 8000 = 8 * width := by
    unfold FUEL_RADIUS_MIN_PERCENT; ring
  have hden : (0 : ℚ) < 2000 * width - 8 * width := by linarith
  have hq : (d - FUEL_RADIUS_MIN_PERCENT / 100 * width * 8000) /
      (FUEL_RADIUS_MAX_PERCENT / 100 * width * 8000 -
        FUEL_RADIUS_MIN_PERCENT / 100 * width * 8000) < 1 := by
    rw [hmax, hmin, div_lt_one hden]
    rw [hmax] at hd
    linarith
  have hratio : 0 < 1 - max 0 ((d - FUEL_RADIUS_MIN_PERCENT / 100 * width * 8000) /
      (FUEL_RADIUS_MAX_PERCENT / 100 * width * 8000 -
        FUEL_RADIUS_MIN_PERCENT / 100 * width * 8000)) := by
    have := max_lt (by norm_num : (0 : ℚ) < 1) hq
    linarith
  have hratio1 : 1 - max 0 ((d - FUEL_RADIUS_MIN_PERCENT / 100 * width * 8000) /
      (FUEL_RADIUS_MAX_PERCENT / 100 * width * 8000 -
        FUEL_RADIUS_MIN_PERCENT / 100 * width * 8000)) ≤ 1 := by
    have := le_max_left 0 ((d - FUEL_RADIUS_MIN_PERCENT / 100 * width * 8000) /
      (FUEL_RADIUS_MAX_PERCENT / 100 * width * 8000 -
        FUEL_RADIUS_MIN_PERCENT / 100 * width * 8000))
    linarith
  obtain ⟨hb1, hb2⟩ := jsRound_bonus_mem _ hratio hratio1
  refine ⟨jsRound (MIN_FUEL_BONUS + (MAX_FUEL_BONUS - MIN_FUEL_BONUS) *
    (1 - max 0 ((d - FUEL_RADIUS_MIN_PERCENT / 100 * width * 8000) /
      (FUEL_RADIUS_MAX_PERCENT / 100 * width * 8000 -
        FUEL_RADIUS_MIN_PERCENT / 100 * width * 8000)))), ?_, ?_, ?_⟩
  · unfold MIN_FUEL_BONUS
    exact_mod_cast hb1
  · unfold MAX_FUEL_BONUS
    exact_mod_cast hb2
  · unfold awardFuelBonus
    dsimp only
    rw [if_pos ⟨le_of_lt hd, rfl⟩, if_pos hratio]

/-- The bonus decision keeps the fuel level inside `[0, INITIAL_FUEL]`. -/
lemma awardFuelBonus_fuel_mem (width fuel : ℚ) (d : Option ℚ) (flag : Bool)
    (h0 : 0 ≤ fuel) (h1 : fuel ≤ INITIAL_FUEL) :
    0 ≤ (awardFuelBonus width fuel d flag).1 ∧
      (awardFuelBonus width fuel d flag).1 ≤ INITIAL_FUEL := by
  unfold awardFuelBonus
  cases d with
  | none => exact ⟨h0, h1⟩
  | some d =>
    dsimp only
    split_ifs with hc hr
    · constructor
      · have hb : (0 : ℤ) ≤ jsRound (MIN_FUEL_BONUS +
            (MAX_FUEL_BONUS - MIN_FUEL_BONUS) *
              (1 - max 0 ((d - FUEL_RADIUS_MIN_PERCENT / 100 * width * 8000) /
                (FUEL_RADIUS_MAX_PERCENT / 100 * width * 8000 -
                  FUEL_RADIUS_MIN_PERCENT / 100 * width * 8000)))) := by
          unfold jsRound MIN_FUEL_BONUS MAX_FUEL_BONUS
          rw [Int.le_floor]
          push_cast
          nlinarith [hr]
        have hb' : (0 : ℚ) ≤ (jsRound (MIN_FUEL_BONUS +
            (MAX_FUEL_BONUS - MIN_FUEL_BONUS) *
              (1 - max 0 ((d - FUEL_RADIUS_MIN_PERCENT / 100 * width * 8000) /
                (FUEL_RADIUS_MAX_PERCENT / 100 * width * 8000 -
                  FUEL_RADIUS_MIN_PERCENT / 100 * width * 8000)))) : ℤ) := by
          exact_mod_cast hb
        refine le_min ?_ ?_
        · unfold INITIAL_FUEL; norm_num
        · linarith
      · exact min_le_left _ _
    · exact ⟨h0, h1⟩
    · exact ⟨h0, h1⟩

/-- The fuel component of a proximity iteration is a bonus decision. -/
lemma proximityAsteroid_fuel (width height fov aspect : ℚ)
    (sqrtF cosF sinF : ℚ → ℚ) (ship : Ship) (fuel : ℚ) (a : Asteroid) :
    (proximityAsteroid width height fov aspect sqrtF cosF sinF ship fuel a).1 =
      (awardFuelBonus width fuel
        (closestDistanceToPoly sqrtF
          ⟨ship.x + ship.width / 2, ship.y + ship.height / 2⟩
          (asteroidPoly width height fov aspect cosF sinF a))
        a.gaveFuelBonus).1 := rfl

/-- The whole proximity pass keeps the fuel level inside
`[0, INITIAL_FUEL]`. -/
lemma proximityFold_fuel_mem (width height fov aspect : ℚ)
    (sqrtF cosF sinF : ℚ → ℚ) (ship : Ship) :
    ∀ (asts : List Asteroid) (fuel : ℚ), 0 ≤ fuel → fuel ≤ INITIAL_FUEL →
      0 ≤ (proximityFold width height fov aspect sqrtF cosF sinF ship fuel asts).1 ∧
        (proximityFold width height fov aspect sqrtF cosF sinF ship fuel asts).1 ≤
          INITIAL_FUEL := by
  intro asts
  induction asts with
  | nil => intro fuel h0 h1; exact ⟨h0, h1⟩
  | cons a rest ih =>
    intro fuel h0 h1
    unfold proximityFold
    dsimp only
    split
    · have h := awardFuelBonus_fuel_mem width fuel
        (closestDistanceToPoly sqrtF
          ⟨ship.x + ship.width / 2, ship.y + ship.height / 2⟩
          (asteroidPoly width height fov aspect cosF sinF a))
        a.gaveFuelBonus h0 h1
      exact ih _ h.1 h.2
    · exact ih fuel h0 h1

/-- The drain step keeps the fuel level inside `[0, INITIAL_FUEL]`. -/
lemma drainStep_fuel_mem (s : GameState) (h0 : 0 ≤ s.fuel)
    (h1 : s.fuel ≤ INITIAL_FUEL) :
    0 ≤ (drainStep s).fuel ∧ (drainStep s).fuel ≤ INITIAL_FUEL := by
  rw [drainStep_fuel]
  split_ifs with h hab
  · refine ⟨le_max_left 0 _, max_le ?_ ?_⟩
    · unfold INITIAL_FUEL; norm_num
    · unfold AFTERBURNER_FUEL_DRAIN_RATE at *; linarith
  · refine ⟨le_max_left 0 _, max_le ?_ ?_⟩
    · unfold INITIAL_FUEL; norm_num
    · unfold FUEL_DRAIN_RATE at *; linarith
  · exact ⟨h0, h1⟩

/-- Inside a tick, only the drain and the proximity pass touch the fuel
level. -/
lemma updateGame_fuel (fov : ℚ) (sqrtF cosF sinF : ℚ → ℚ) (genS : ℕ → StarGen)
    (genA : ℕ → AstGen) (s : GameState) (h : s.gameOver = false) :
    (updateGame fov sqrtF cosF sinF genS genA s).fuel =
      (proximityStep fov sqrtF cosF sinF (drainStep s)).fuel := by
  simp [updateGame, h]

/-- A tick keeps the fuel level inside `[0, INITIAL_FUEL]`. -/
lemma updateGame_fuel_mem (fov : ℚ) (sqrtF cosF sinF : ℚ → ℚ)
    (genS : ℕ → StarGen) (genA : ℕ → AstGen) (s : GameState) (h0 : 0 ≤ s.fuel)
    (h1 : s.fuel ≤ INITIAL_FUEL) :
    0 ≤ (updateGame fov sqrtF cosF sinF genS genA s).fuel ∧
      (updateGame fov sqrtF cosF sinF genS genA s).fuel ≤ INITIAL_FUEL := by
  cases hg : s.gameOver with
  | true => simp [updateGame, hg]; exact ⟨h0, h1⟩
  | false =>
    rw [updateGame_fuel fov sqrtF cosF sinF genS genA s hg, proximityStep_fuel]
    obtain ⟨hd0, hd1⟩ := drainStep_fuel_mem s h0 h1
    simpa using proximityFold_fuel_mem (drainStep s).width (drainStep s).height
      fov ((drainStep s).width / (drainStep s).height) sqrtF cosF sinF
      (drainStep s).ship (drainStep s).asteroids (drainStep s).fuel hd0 hd1

/-- Any tick sequence keeps the fuel level inside `[0, INITIAL_FUEL]`. -/
lemma runTicks_fuel_mem (envs : List TickEnv) :
    ∀ s : GameState, 0 ≤ s.fuel → s.fuel ≤ INITIAL_FUEL →
      0 ≤ (runTicks envs s).fuel ∧ (runTicks envs s).fuel ≤ INITIAL_FUEL := by
  induction envs with
  | nil => intro s h0 h1; exact ⟨h0, h1⟩
  | cons env rest ih =>
    intro s h0 h1
    have h := updateGame_fuel_mem env.fov env.sqrtF env.cosF env.sinF env.genS
      env.genA (applyInputs env s) h0 h1
    exact ih (runTick env s) h.1 h.2

/-- C2 (amended).  The fuel economy: (1) from the initial tank of
`INITIAL_FUEL = 100`, every tick sequence keeps `fuel ∈ [0, 100]`;
(2) the drain rates are positive and the afterburner rate is the larger;
(3) a tick with fuel remaining drains exactly the mode's rate, floored at
`0`; (4) a proximity *strictly* inside the maximum radius against an
asteroid with an unset flag adds a rounded bonus in
`[MIN_FUEL_BONUS, MAX_FUEL_BONUS] = [10, 50]` clamped at `100` and sets the
flag; (5) a proximity check against an asteroid whose flag is already set
changes nothing. -/
theorem fuel_economy :
    (∀ (envs : List TickEnv) (s : GameState), s.fuel = INITIAL_FUEL →
      0 ≤ (runTicks envs s).fuel ∧ (runTicks envs s).fuel ≤ INITIAL_FUEL) ∧
    (0 < FUEL_DRAIN_RATE ∧ FUEL_DRAIN_RATE < AFTERBURNER_FUEL_DRAIN_RATE) ∧
    (∀ s : GameState, 0 < s.fuel → (drainStep s).fuel =
      max 0 (s.fuel - (if s.afterburner then AFTERBURNER_FUEL_DRAIN_RATE
        else FUEL_DRAIN_RATE))) ∧
    (∀ width fuel d : ℚ, 0 < width →
      d < FUEL_RADIUS_MAX_PERCENT / 100 * width * 8000 →
      ∃ b : ℤ, MIN_FUEL_BONUS ≤ (b : ℚ) ∧ (b : ℚ) ≤ MAX_FUEL_BONUS ∧
        awardFuelBonus width fuel (some d) false =
          (min INITIAL_FUEL (fuel + (b : ℚ)), true)) ∧
    (∀ (width height fov aspect : ℚ) (sqrtF cosF sinF : ℚ → ℚ) (ship : Ship)
      (fuel : ℚ) (a : Asteroid), a.gaveFuelBonus = true →
      proximityAsteroid width height fov aspect sqrtF cosF sinF ship fuel a =
        (fuel, a)) := by
  refine ⟨?_, ⟨?_, ?_⟩, ?_, ?_, ?_⟩
  · intro envs s h
    exact runTicks_fuel_mem envs s (by rw [h]; unfold INITIAL_FUEL; norm_num)
      (le_of_eq h)
  · unfold FUEL_DRAIN_RATE; norm_num
  · unfold FUEL_DRAIN_RATE AFTERBURNER_FUEL_DRAIN_RATE; norm_num
  · intro s h
    rw [drainStep_fuel, if_pos h]
  · intro width fuel d hW hd
    exact awardFuelBonus_awards width fuel d hW hd
  · intro width height fov aspect sqrtF cosF sinF ship fuel a h
    unfold proximityAsteroid
    dsimp only
    rw [h, awardFuelBonus_flagged]
    obtain ⟨ax, ay, az, asize, aspeed, aout, ah, aang, asp, aop, afl⟩ := a
    simp only at h
    subst h
    rfl

/-- Counterexample for C2 as stated: at proximity *equal* to the maximum
radius (`2000 · width`, here `width = 1000`) against an asteroid with an
unset flag, no bonus is added and the flag stays unset — the inner
`distanceRatio > 0` guard fails, so "within the maximum radius" must be
read strictly. -/
theorem fuel_bonus_boundary_cex :
    (awardFuelBonus 1000 50
      (some (FUEL_RADIUS_MAX_PERCENT / 100 * 1000 * 8000)) false).1 = 50 ∧
    (awardFuelBonus 1000 50
      (some (FUEL_RADIUS_MAX_PERCENT / 100 * 1000 * 8000)) false).2 = false := by
  constructor <;> decide

/-- Witness for C2: the conjuncts applied at concrete inputs. -/
theorem fuel_economy_witness :
    (0 ≤ (runTicks [] { stWitness with fuel := INITIAL_FUEL }).fuel ∧
      (runTicks [] { stWitness with fuel := INITIAL_FUEL }).fuel ≤ INITIAL_FUEL) ∧
    (drainStep stWitness).fuel =
      max 0 (stWitness.fuel - (if stWitness.afterburner then
        AFTERBURNER_FUEL_DRAIN_RATE else FUEL_DRAIN_RATE)) ∧
    (∃ b : ℤ, MIN_FUEL_BONUS ≤ (b : ℚ) ∧ (b : ℚ) ≤ MAX_FUEL_BONUS ∧
      awardFuelBonus 1000 40 (some 1000) false =
        (min INITIAL_FUEL (40 + (b : ℚ)), true)) ∧
    proximityAsteroid 1000 500 1 2 sqrtVals constOne constZero
      ⟨440, 205, 120, 90⟩ 40 astFlagged = (40, astFlagged) :=
  ⟨fuel_economy.1 [] { stWitness with fuel := INITIAL_FUEL } rfl,
   fuel_economy.2.2.1 stWitness (by norm_num [stWitness]),
   fuel_economy.2.2.2.1 1000 40 1000 (by norm_num)
     (by norm_num [FUEL_RADIUS_MAX_PERCENT]),
   fuel_economy.2.2.2.2 1000 500 1 2 sqrtVals constOne constZero
     ⟨440, 205, 120, 90⟩ 40 astFlagged rfl⟩

/-! ### Afterburner accelerator (C9) -/

/-- C9.  While the afterburner is engaged and fuel remains, the acceleration
multiplier ramps at `AFTERBURNER_ACCELERATION_RATE = 0.2` per tick toward
the cap `AFTERBURNER_SPEED_MULTIPLIER = 3`; in every other case (afterburner
released, or fuel exhausted) it is `1` on that very tick, with no decay
ramp.  The last conjunct places the update inside the tick: the multiplier
of a tick's result is this update applied to the post-drain afterburner
flag, the post-bonus fuel level and the previous multiplier. -/
theorem afterburner_multiplier :
    (∀ (ab : Bool) (fuel accel : ℚ), ab = true → 0 < fuel →
      accelUpdate ab fuel accel =
        min AFTERBURNER_SPEED_MULTIPLIER (accel + AFTERBURNER_ACCELERATION_RATE)) ∧
    (∀ (ab : Bool) (fuel accel : ℚ), ab = true → 0 < fuel →
      accel + AFTERBURNER_ACCELERATION_RATE ≤ AFTERBURNER_SPEED_MULTIPLIER →
      accelUpdate ab fuel accel = accel + AFTERBURNER_ACCELERATION_RATE) ∧
    (∀ (ab : Bool) (fuel accel : ℚ), ab = false ∨ fuel ≤ 0 →
      accelUpdate ab fuel accel = 1) ∧
    (∀ (fov : ℚ) (sqrtF cosF sinF : ℚ → ℚ) (genS : ℕ → StarGen)
      (genA : ℕ → AstGen) (s : GameState), s.gameOver = false →
      (updateGame fov sqrtF cosF sinF genS genA s).accel =
        accelUpdate (drainStep s).afterburner
          (proximityStep fov sqrtF cosF sinF (drainStep s)).fuel s.accel) := by
  refine ⟨?_, ?_, ?_, ?_⟩
  · intro ab fuel accel h1 h2
    unfold accelUpdate
    rw [if_pos ⟨h1, h2⟩]
  · intro ab fuel accel h1 h2 h3
    unfold accelUpdate
    rw [if_pos ⟨h1, h2⟩, min_eq_right h3]
  · rintro ab fuel accel (h | h)
    · simp [accelUpdate, h]
    · have h' : ¬0 < fuel := not_lt.mpr h
      simp [accelUpdate, h']
  · intro fov sqrtF cosF sinF genS genA s h
    simp [updateGame, h]

/-- Witness for C9 at concrete inputs: ramping at `(ab, fuel, accel) =
(true, 50, 1)`, instant reset at `(false, 50, 7/5)`, and the in-tick
placement at `stWitness`. -/
theorem afterburner_multiplier_witness :
    accelUpdate true 50 1 = 1 + AFTERBURNER_ACCELERATION_RATE ∧
    accelUpdate false 50 (7 / 5) = 1 ∧
    (updateGame 1 sqrtVals constOne constZero genSFix genAFix stWitness).accel =
      accelUpdate (drainStep stWitness).afterburner
        (proximityStep 1 sqrtVals constOne constZero (drainStep stWitness)).fuel
        stWitness.accel :=
  ⟨afterburner_multiplier.2.1 true 50 1 rfl (by norm_num)
     (by norm_num [AFTERBURNER_ACCELERATION_RATE, AFTERBURNER_SPEED_MULTIPLIER]),
   afterburner_multiplier.2.2.1 false 50 (7 / 5) (Or.inl rfl),
   afterburner_multiplier.2.2.2 1 sqrtVals constOne constZero genSFix genAFix
     stWitness rfl⟩

/-! ### High-score store (C10) -/

/-- Every event of a game-over trace started from a state whose in-memory
high score dominates the startup read `r0` writes only when the final score
exceeds `r0`, and leaves the store untouched otherwise. -/
lemma highScoreTrace_sound (r0 : ℚ) :
    ∀ (scores : List ℚ) (s : HighScoreState), r0 ≤ s.highScore →
      ∀ e ∈ highScoreTrace s scores,
        (e.wrote = true → r0 < e.score) ∧
        (e.wrote = false → e.after.stored = e.before.stored) ∧
        (e.score ≤ r0 → e.after.stored = e.before.stored) := by
  intro scores
  induction scores with
  | nil => intro s _ e he; cases he
  | cons sc rest ih =>
    intro s hs e he
    unfold highScoreTrace at he
    dsimp only at he
    rcases List.mem_cons.mp he with he | he
    · subst he
      unfold gameOverHighScore
      split_ifs with hlt
      · refine ⟨fun _ => lt_of_le_of_lt hs hlt, fun hw => by simp at hw, ?_⟩
        intro hle
        exact absurd (lt_of_le_of_lt hs hlt) (not_lt.mpr hle)
      · exact ⟨fun hw => by simp [gameOverHighScore, hlt] at hw, fun _ => rfl,
          fun _ => rfl⟩
    · refine ih (gameOverHighScore s sc).1 ?_ e he
      unfold gameOverHighScore
      split_ifs with hlt
      · exact le_of_lt (lt_of_le_of_lt hs hlt)
      · exact hs

/-- C10.  The store is read once at startup into the in-memory high score,
and across any sequence of `RUNNING → GAME_OVER` transitions the store's
write operation is invoked only at transitions whose final score exceeds
the startup read; at a transition whose score does not exceed the startup
read — and more generally whenever no write is invoked — the stored value
is unchanged. -/
theorem high_score_write_policy (stored0 : ℤ) (scores : List ℚ) :
    (readHighScore stored0).highScore = (stored0 : ℚ) ∧
    ∀ e ∈ highScoreTrace (readHighScore stored0) scores,
      (e.wrote = true → (stored0 : ℚ) < e.score) ∧
      (e.wrote = false → e.after.stored = e.before.stored) ∧
      (e.score ≤ (stored0 : ℚ) → e.after.stored = e.before.stored) :=
  ⟨rfl, highScoreTrace_sound (stored0 : ℚ) scores (readHighScore stored0)
    (le_of_eq rfl)⟩

/-- Witness for C10 with startup read `10` and game-over scores `[25, 20]`:
the first transition (score `25 > 10`) writes, the second (score `20 < 25`)
does not and leaves the store at `25`. -/
theorem high_score_write_policy_witness :
    (highScoreTrace (readHighScore 10) [25, 20] =
      [⟨⟨10, 10⟩, 25, ⟨25, 25⟩, true⟩, ⟨⟨25, 25⟩, 20, ⟨25, 25⟩, false⟩]) ∧
    ((10 : ℤ) : ℚ) < 25 ∧
    (⟨⟨25, 25⟩, 20, ⟨25, 25⟩, false⟩ : HSEvent).after.stored =
      (⟨⟨25, 25⟩, 20, ⟨25, 25⟩, false⟩ : HSEvent).before.stored := by
  refine ⟨by decide, ?_, ?_⟩
  · exact ((high_score_write_policy 10 [25, 20]).2
      ⟨⟨10, 10⟩, 25, ⟨25, 25⟩, true⟩ (by decide)).1 rfl
  · exact ((high_score_write_policy 10 [25, 20]).2
      ⟨⟨25, 25⟩, 20, ⟨25, 25⟩, false⟩ (by decide)).2.1 rfl

/-! ### Recycling (C4) -/

/-- A star that entered `advance` at or below the near plane takes the
recycle branch and is fully re-randomized at the far depth. -/
lemma advanceStar_recycles (width height fov aspect speed mult : ℚ)
    (gS : StarGen) (star : Star) (hz : star.z < 10) (h1 : 0 ≤ speed)
    (h2 : 0 ≤ star.speed) (h3 : 0 ≤ mult) :
    advanceStar width height fov aspect speed mult gS star =
      { x := (gS.sx - 1 / 2) * 2 * STARFIELD_DEPTH * fov / aspect,
        y := (gS.sy - 1 / 2) * 2 * STARFIELD_DEPTH * fov,
        z := STARFIELD_DEPTH, px := none, py := none,
        size := 1 + gS.rsize * 2, speed := 1 + gS.rspeed * 2, opacity := 0 } := by
  have hss : (0 : ℚ) ≤ min (5 / 2) (speed * star.speed * (5 / 1000) * mult) := by
    refine le_min (by norm_num) ?_
    have h12 : 0 ≤ speed * star.speed := mul_nonneg h1 h2
    nlinarith
  unfold advanceStar
  by_cases h0 : 0 < star.z
  · rw [if_pos h0]
    dsimp only
    split
    · rfl
    · rename_i hcond
      push_neg at hcond
      have := hcond.1
      simp only [not_lt] at this
      linarith
  · rw [if_neg h0]
    dsimp only
    split
    · rfl
    · rename_i hcond
      push_neg at hcond
      have := hcond.1
      simp only [not_lt] at this
      linarith

/-- An asteroid that entered `advance` at or below the near plane takes the
recycle branch: it is regenerated in place (keeping only its `holes`) with
the one-shot flag cleared. -/
lemma advanceAsteroid_recycles (width height fov aspect speed mult : ℚ)
    (gA : AstGen) (a : Asteroid) (hz : a.z < 10) (h1 : 0 ≤ speed)
    (h2 : 0 ≤ a.speed) (h3 : 0 ≤ mult) :
    advanceAsteroid width height fov aspect speed mult gA a =
      { generateAsteroid3D width height fov ASTEROID_MIN_Z_FACTOR
          ASTEROID_MAX_Z_FACTOR ASTEROID_MIN_SPEED ASTEROID_MAX_SPEED gA
        with holes := a.holes } := by
  have hd : (0 : ℚ) ≤ speed * a.speed * mult :=
    mul_nonneg (mul_nonneg h1 h2) h3
  unfold advanceAsteroid
  dsimp only
  split
  · rfl
  · rename_i hcond
    push_neg at hcond
    have := hcond.1
    simp only [not_lt] at this
    linarith

/-- C4 (amended).  An entity at or below the near plane when `advance` runs
is recycled by that single call: a star ends with `z = STARFIELD_DEPTH`
exactly, cleared `px`/`py` and opacity `0`; an asteroid ends with its
one-shot bonus flag `false`, opacity `0`, and a *fresh random* far depth
`STARFIELD_DEPTH · (minZFactor + rz · (maxZFactor - minZFactor))`, which
lies in `[102000, 144000)` for a depth draw `rz ∈ [0, 1)` — not a fixed
constant. -/
theorem near_plane_recycle (width height fov aspect speed mult : ℚ)
    (gS : StarGen) (gA : AstGen) (star : Star) (a : Asteroid)
    (hzs : star.z < 10) (hsp : 0 ≤ star.speed) (hza : a.z < 10)
    (hap : 0 ≤ a.speed) (h1 : 0 ≤ speed) (h3 : 0 ≤ mult) :
    (advanceStar width height fov aspect speed mult gS star).z =
      STARFIELD_DEPTH ∧
    (advanceStar width height fov aspect speed mult gS star).px = none ∧
    (advanceStar width height fov aspect speed mult gS star).py = none ∧
    (advanceStar width height fov aspect speed mult gS star).opacity = 0 ∧
    (advanceAsteroid width height fov aspect speed mult gA a).z =
      STARFIELD_DEPTH * (ASTEROID_MIN_Z_FACTOR +
        gA.rz * (ASTEROID_MAX_Z_FACTOR - ASTEROID_MIN_Z_FACTOR)) ∧
    (advanceAsteroid width height fov aspect speed mult gA a).gaveFuelBonus =
      false ∧
    (advanceAsteroid width height fov aspect speed mult gA a).opacity = 0 ∧
    (0 ≤ gA.rz → gA.rz < 1 →
      102000 ≤ (advanceAsteroid width height fov aspect speed mult gA a).z ∧
      (advanceAsteroid width height fov aspect speed mult gA a).z < 144000) := by
  rw [advanceStar_recycles width height fov aspect speed mult gS star hzs h1 hsp h3,
    advanceAsteroid_recycles width height fov aspect speed mult gA a hza h1 hap h3]
  refine ⟨rfl, rfl, rfl, rfl, rfl, rfl, rfl, ?_⟩
  intro hr0 hr1
  have hz : ({ generateAsteroid3D width height fov ASTEROID_MIN_Z_FACTOR
      ASTEROID_MAX_Z_FACTOR ASTEROID_MIN_SPEED ASTEROID_MAX_SPEED gA
      with holes := a.holes } : Asteroid).z =
      STARFIELD_DEPTH * (ASTEROID_MIN_Z_FACTOR +
        gA.rz * (ASTEROID_MAX_Z_FACTOR - ASTEROID_MIN_Z_FACTOR)) := rfl
  rw [hz]
  unfold STARFIELD_DEPTH ASTEROID_MIN_Z_FACTOR ASTEROID_MAX_Z_FACTOR
  constructor <;> nlinarith

/-- Counterexample for C4 as stated: after one advance past the near plane,
a star sits exactly at the far depth `STARFIELD_DEPTH = 1200`, but a
recycled asteroid sits at a draw-dependent depth (`102000` for draw `0`,
`123000` for draw `1/2`) — there is no single `farDepth` equal to `z` for
every recycled entity. -/
theorem near_plane_recycle_cex :
    (advanceStar 1000 500 1 2 10 1 starGenVal starNearFix).z = STARFIELD_DEPTH ∧
    (advanceAsteroid 1000 500 1 2 10 1 genAValA astNearFix).z = 102000 ∧
    (advanceAsteroid 1000 500 1 2 10 1 genAValB astNearFix).z = 123000 ∧
    (advanceAsteroid 1000 500 1 2 10 1 genAValA astNearFix).z ≠
      STARFIELD_DEPTH ∧
    (advanceAsteroid 1000 500 1 2 10 1 genAValA astNearFix).z ≠
      (advanceAsteroid 1000 500 1 2 10 1 genAValB astNearFix).z := by
  refine ⟨?_, ?_, ?_, ?_, ?_⟩ <;> decide

/-- Witness for C4's amended theorem at the concrete near-plane star and
asteroid. -/
theorem near_plane_recycle_witness :
    (advanceStar 1000 500 1 2 10 1 starGenVal starNearFix).z =
      STARFIELD_DEPTH ∧
    (advanceStar 1000 500 1 2 10 1 starGenVal starNearFix).px = none ∧
    (advanceStar 1000 500 1 2 10 1 starGenVal starNearFix).py = none ∧
    (advanceStar 1000 500 1 2 10 1 starGenVal starNearFix).opacity = 0 ∧
    (advanceAsteroid 1000 500 1 2 10 1 genAValB astNearFix).z =
      STARFIELD_DEPTH * (ASTEROID_MIN_Z_FACTOR +
        genAValB.rz * (ASTEROID_MAX_Z_FACTOR - ASTEROID_MIN_Z_FACTOR)) ∧
    (advanceAsteroid 1000 500 1 2 10 1 genAValB astNearFix).gaveFuelBonus =
      false ∧
    (advanceAsteroid 1000 500 1 2 10 1 genAValB astNearFix).opacity = 0 ∧
    (0 ≤ genAValB.rz → genAValB.rz < 1 →
      102000 ≤ (advanceAsteroid 1000 500 1 2 10 1 genAValB astNearFix).z ∧
      (advanceAsteroid 1000 500 1 2 10 1 genAValB astNearFix).z < 144000) :=
  near_plane_recycle 1000 500 1 2 10 1 starGenVal genAValB starNearFix
    astNearFix (by norm_num [starNearFix]) (by norm_num [starNearFix])
    (by norm_num [astNearFix]) (by norm_num [astNearFix]) (by norm_num)
    (by norm_num)

/-! ### Off-screen exclusion (C5) -/

/-- C5 failing input evaluated: `astOffFix` is fully off screen (its
projected centre and every transformed vertex sit at `x = 1500 > 1000`),
yet the tick's visibility filter accepts it — so it is handed to both the
proximity pass and the collision test — and the proximity pass even awards
it a fuel bonus (`40 → 90`; over the full tick, `40 → 39.997 → 89.997`). -/
theorem offscreen_asteroid_included :
    isVisible astOffFix = true ∧
    (∀ p ∈ asteroidPoly 1000 500 1 2 constOne constZero astOffFix,
      1000 < p.x) ∧
    1000 < (projectStar astOffFix.x astOffFix.y astOffFix.z 1000 500 1 2).x ∧
    proximityAsteroid 1000 500 1 2 sqrtVals constOne constZero
      ⟨440, 205, 120, 90⟩ 40 astOffFix =
      (90, { astOffFix with gaveFuelBonus := true }) ∧
    (updateGame 1 sqrtVals constOne constZero genSFix genAFix stOffFix).fuel =
      89997 / 1000 := by
  refine ⟨?_, ?_, ?_, ?_, ?_⟩ <;> decide

/-! ### Tick step order (C3) -/

/-- Counterexample for C3 as stated: on `stOrderFix` the real tick differs
from the specification's step order.  The only asteroid starts at
`z = 1250` (outside the visibility window), so the real tick — whose
proximity pass runs right after the fuel drain, *before* the fields
advance — awards nothing (`fuel = 39.997`, flag still `false`), while the
spec-ordered tick — proximity after the advance, when the asteroid has
reached `z ≈ 1170` over the craft — awards a `50`-unit bonus
(`fuel = 89.997`, flag `true`). -/
theorem tick_step_order_cex :
    (updateGame 1 sqrtVals constOne constZero genSFix genAFix stOrderFix).fuel =
      39997 / 1000 ∧
    (List.map (fun a => a.gaveFuelBonus)
      (updateGame 1 sqrtVals constOne constZero genSFix genAFix
        stOrderFix).asteroids) = [false] ∧
    (updateGameSpecOrder 1 sqrtVals constOne constZero genSFix genAFix
      stOrderFix).fuel = 89997 / 1000 ∧
    (List.map (fun a => a.gaveFuelBonus)
      (updateGameSpecOrder 1 sqrtVals constOne constZero genSFix genAFix
        stOrderFix).asteroids) = [true] ∧
    updateGame 1 sqrtVals constOne constZero genSFix genAFix stOrderFix ≠
      updateGameSpecOrder 1 sqrtVals constOne constZero genSFix genAFix
        stOrderFix := by
  refine ⟨?_, ?_, ?_, ?_, ?_⟩ <;> decide

/-- C3 (amended).  The order a tick actually performs its steps in:
(1) fuel drain; (2) proximity checks and fuel bonuses, computed from the
*pre-advance* asteroid positions and the *pre-move* craft; (3) accelerator
ramp, fed the post-bonus fuel; (4) speed/score growth, fed the post-bonus
fuel and the fresh multiplier; (5) craft, starfield and asteroid advance;
(6) collision test over the post-advance asteroids selected by the
visibility mask taken before the advance, with the post-move craft, setting
the game-over latch. -/
theorem tick_step_order (fov : ℚ) (sqrtF cosF sinF : ℚ → ℚ)
    (genS : ℕ → StarGen) (genA : ℕ → AstGen) (s : GameState)
    (h : s.gameOver = false) :
    ((updateGame fov sqrtF cosF sinF genS genA s).fuel =
      (proximityFold s.width s.height fov (s.width / s.height) sqrtF cosF sinF
        s.ship (drainStep s).fuel s.asteroids).1) ∧
    ((updateGame fov sqrtF cosF sinF genS genA s).accel =
      accelUpdate (drainStep s).afterburner
        (proximityStep fov sqrtF cosF sinF (drainStep s)).fuel s.accel) ∧
    ((updateGame fov sqrtF cosF sinF genS genA s).speed =
      if 0 < (proximityStep fov sqrtF cosF sinF (drainStep s)).fuel then
        s.speed + SPEED_INCREMENT *
          accelUpdate (drainStep s).afterburner
            (proximityStep fov sqrtF cosF sinF (drainStep s)).fuel s.accel
      else s.speed) ∧
    ((updateGame fov sqrtF cosF sinF genS genA s).gameOver =
      checkCollision s.width s.height fov (s.width / s.height) cosF sinF
        (updateGame fov sqrtF cosF sinF genS genA s).ship
        (List.map (fun p => p.2)
          (List.filter (fun p => p.1)
            ((List.map isVisible s.asteroids).zip
              (updateGame fov sqrtF cosF sinF genS genA s).asteroids)))) := by
  refine ⟨?_, ?_, ?_, ?_⟩
  · simp [updateGame, h, proximityStep_fuel]
  · simp [updateGame, h]
  · simp [updateGame, h, speedScoreStep_speed]
  · simp [updateGame, h, collisionStep_gameOver]

/-- Witness for C3's amended theorem at `stOrderFix`. -/
theorem tick_step_order_witness :
    (updateGame 1 sqrtVals constOne constZero genSFix genAFix stOrderFix).fuel =
      (proximityFold stOrderFix.width stOrderFix.height 1
        (stOrderFix.width / stOrderFix.height) sqrtVals constOne constZero
        stOrderFix.ship (drainStep stOrderFix).fuel stOrderFix.asteroids).1 :=
  (tick_step_order 1 sqrtVals constOne constZero genSFix genAFix stOrderFix
    rfl).1

/-! ### Holes are not consulted by the collision test (C6) -/

/-- C6.  `checkCollision` reads only the outer polygon: replacing an
asteroid's hole sub-polygons changes nothing, and a craft sample point that
lies inside a hole's transform (a region the even-odd fill leaves empty)
while inside the transformed outer polygon is still reported as a
collision. -/
theorem holes_not_consulted :
    (∀ (width height fov aspect : ℚ) (cosF sinF : ℚ → ℚ) (r : Ship)
      (a : Asteroid) (hs : List (List Pt)),
      checkCollision width height fov aspect cosF sinF r
        [{ a with holes := hs }] =
        checkCollision width height fov aspect cosF sinF r [a]) ∧
    (∀ (width height fov aspect : ℚ) (cosF sinF : ℚ → ℚ) (r : Ship)
      (a : Asteroid) (p : Pt), p ∈ samplePoints r →
      (∃ hole ∈ a.holes, pointInPolygon p
        (transformPoly width fov cosF sinF
          (projectStar a.x a.y a.z width height fov aspect) a.angle a.z
          hole) = true) →
      pointInPolygon p (asteroidPoly width height fov aspect cosF sinF a) =
        true →
      checkCollision width height fov aspect cosF sinF r [a] = true) := by
  constructor
  · intro width height fov aspect cosF sinF r a hs
    rfl
  · intro width height fov aspect cosF sinF r a p hp _ hin
    simp only [checkCollision, List.any_eq_true, List.mem_singleton]
    exact ⟨a, rfl, (asteroidHit_iff width height fov aspect cosF sinF r a).mpr
      ⟨p, hp, hin⟩⟩

/-- Witness for C6: the craft centre of `shipHoleFix` lies inside the
transformed hole of `astHoleFix` (and inside its outer square), and
`checkCollision` still reports a hit; erasing the holes changes nothing. -/
theorem holes_not_consulted_witness :
    checkCollision 1000 500 1 2 constOne constZero shipHoleFix [astHoleFix] =
      true ∧
    checkCollision 1000 500 1 2 constOne constZero shipHoleFix
      [{ astHoleFix with holes := [] }] =
      checkCollision 1000 500 1 2 constOne constZero shipHoleFix [astHoleFix] :=
  ⟨holes_not_consulted.2 1000 500 1 2 constOne constZero shipHoleFix astHoleFix
      (rectCenter shipHoleFix) (by decide)
      ⟨[⟨-10, -10⟩, ⟨10, -10⟩, ⟨10, 10⟩, ⟨-10, 10⟩], by decide, by decide⟩
      (by decide),
   holes_not_consulted.1 1000 500 1 2 constOne constZero shipHoleFix astHoleFix
     []⟩

end Einsof
